import Mathlib

/-!
# Verification of the `adex` agent-orchestration pipeline

Shallow embedding of the agent orchestration code of this repository:

* `src/codex/agents/src/lib.rs` — `AgentSuite::orchestrate`,
  `AgentSuite::execute_agent`, `AgentSuite::prepare_agent_input`;
* `src/codex/backend/orchestrator/src/lib.rs` — `AgentOrchestrator::process_request`.

JSON values (`serde_json::Value`) are modelled by the inductive `Json`
(numbers as `Int`, which suffices for every value the claims touch).
The five concrete agents perform network model calls; their behaviour is
abstracted by an oracle `AgentBehavior : AgentType → Json → Except String Json`
mapping the prepared input to the serialized response or an error message,
exactly the shape `execute_agent`'s match arms consume.  Wall-clock timing
fields (`execution_time_ms`, `total_execution_time_ms`, timestamps) are not
modelled; `success_rate` (an `f32` in the source) is modelled as an exact
rational computed by the source's formula `(successCount / N) * 100`.
-/

namespace Adex

/-- Model of `serde_json::Value`.  Objects keep their field order as a list
of key/value pairs; `Value::get` looks up the first matching key. -/
inductive Json where
  | null : Json
  | bool : Bool → Json
  | num : Int → Json
  | str : String → Json
  | arr : List Json → Json
  | obj : List (String × Json) → Json

/-- `serde_json::Value::get(key)`: `Some` field value on objects, `None`
otherwise (mirrors `Value::get` returning `Option<&Value>`). -/
def Json.get : Json → String → Option Json
  | .obj fields, k => (fields.find? (fun p => p.1 == k)).map (·.2)
  | _, _ => none

/-- Whether a JSON value is an object (`Value::as_object().is_some()`). -/
def Json.isObj : Json → Bool
  | .obj _ => true
  | _ => false

/-- The five agent kinds (`enum AgentType`). -/
inductive AgentType where
  | Spec : AgentType
  | Code : AgentType
  | TestGenerator : AgentType
  | Reviewer : AgentType
  | Debug : AgentType
  deriving DecidableEq, Repr

/-- The derived `Debug` rendering of an agent type, as produced by the
source's debug formatting of the enum variants. -/
def AgentType.debugStr : AgentType → String
  | .Spec => "Spec"
  | .Code => "Code"
  | .TestGenerator => "TestGenerator"
  | .Reviewer => "Reviewer"
  | .Debug => "Debug"

/-- `struct AgentOrchestrationRequest` (the agents-layer request).
`HashMap<String, String>` is modelled as an association list. -/
structure AgentOrchestrationRequest where
  prompt : String
  context : Option (List (String × String))
  agent_sequence : Option (List AgentType)
  options : Option (List (String × String))

/-- `options.as_ref().and_then(|o| o.get(key))` — lookup in the optional
string map. -/
def optionsGet (o : Option (List (String × String))) (key : String) : Option String :=
  o.bind (fun m => (m.find? (fun p => p.1 == key)).map (·.2))

/-- Serialization of an `Option<&String>` inside `serde_json::json!`:
`None` becomes JSON `null`, `Some(s)` the JSON string. -/
def jsonOfOptStr : Option String → Json
  | none => Json.null
  | some s => Json.str s

/-- Serialization of an `Option<&Value>` inside `serde_json::json!`:
`None` becomes JSON `null`, `Some(v)` the value itself. -/
def jsonOfOptVal : Option Json → Json
  | none => Json.null
  | some v => v

/-- Serialization of `Option<HashMap<String, String>>` inside
`serde_json::json!`: `None` is `null`, `Some(map)` an object of strings. -/
def jsonOfCtx : Option (List (String × String)) → Json
  | none => Json.null
  | some m => Json.obj (m.map (fun p => (p.1, Json.str p.2)))

/-- `AgentSuite::prepare_agent_input` (src/codex/agents/src/lib.rs:194-266),
the input mapper: every match arm returns `Ok(json!(...))`. -/
def prepare_agent_input (agent_type : AgentType) (request : AgentOrchestrationRequest)
    (previous_output : Option Json) : Except String Json :=
  match agent_type with
  | .Spec =>
    .ok (Json.obj
      [("prompt", Json.str request.prompt),
       ("context", jsonOfCtx request.context),
       ("project_type", jsonOfOptStr (optionsGet request.options "project_type")),
       ("existing_requirements", jsonOfOptStr (optionsGet request.options "existing_requirements"))])
  | .Code =>
    match previous_output with
    | some spec_output =>
      .ok (Json.obj
        [("prompt", Json.str request.prompt),
         ("context", jsonOfCtx request.context),
         ("requirements", jsonOfOptVal (spec_output.get "requirements")),
         ("existing_files", jsonOfOptStr (optionsGet request.options "existing_files")),
         ("target_files", jsonOfOptStr (optionsGet request.options "target_files"))])
    | none =>
      .ok (Json.obj
        [("prompt", Json.str request.prompt),
         ("context", jsonOfCtx request.context)])
  | .TestGenerator =>
    match previous_output with
    | some code_output =>
      .ok (Json.obj
        [("code_changes", jsonOfOptVal (code_output.get "changes")),
         ("requirements", jsonOfOptVal (code_output.get "requirements")),
         ("test_framework", jsonOfOptStr (optionsGet request.options "test_framework")),
         ("coverage_goals", jsonOfOptStr (optionsGet request.options "coverage_goals"))])
    | none =>
      .ok (Json.obj [("prompt", Json.str request.prompt)])
  | .Reviewer =>
    match previous_output with
    | some code_output =>
      .ok (Json.obj
        [("code_changes", jsonOfOptVal (code_output.get "changes")),
         ("requirements", jsonOfOptVal (code_output.get "requirements")),
         ("review_focus", jsonOfOptStr (optionsGet request.options "review_focus"))])
    | none =>
      .ok (Json.obj [("prompt", Json.str request.prompt)])
  | .Debug =>
    .ok (Json.obj
      [("logs", jsonOfOptStr (optionsGet request.options "logs")),
       ("error_context", jsonOfCtx request.context),
       ("codebase_files", jsonOfOptStr (optionsGet request.options "codebase_files")),
       ("debug_focus", jsonOfOptStr (optionsGet request.options "debug_focus"))])

/-- Oracle abstracting the five concrete agents: deserialization of the
prepared input, the model-backed agent call, and re-serialization of the
response, any of which may fail with an error message. -/
def AgentBehavior : Type := AgentType → Json → Except String Json

/-- `AgentSuite::execute_agent` (src/codex/agents/src/lib.rs:152-192):
prepare the input, run the agent, and return `(input, output)`. -/
def execute_agent (agents : AgentBehavior) (agent_type : AgentType)
    (request : AgentOrchestrationRequest) (previous_output : Option Json) :
    Except String (Json × Json) :=
  match prepare_agent_input agent_type request previous_output with
  | .error e => .error e
  | .ok input =>
    match agents agent_type input with
    | .error e => .error e
    | .ok output => .ok (input, output)

/-- `struct AgentExecution` — one step record.  The wall-clock
`execution_time_ms` field is not modelled. -/
structure AgentExecution where
  agent_type : AgentType
  input : Json
  output : Json
  success : Bool
  error_message : Option String

/-- `struct OrchestrationMetadata` of the agents layer.  The wall-clock
`total_execution_time_ms` field is not modelled; the `f32` success rate is
modelled as an exact rational. -/
structure OrchestrationMetadata where
  agents_executed : Nat
  success_rate : ℚ
  warnings : List String

/-- `struct AgentOrchestrationResponse`. -/
structure AgentOrchestrationResponse where
  execution_order : List AgentExecution
  final_result : Option Json
  metadata : OrchestrationMetadata

/-- One iteration of the loop in `AgentSuite::orchestrate`
(src/codex/agents/src/lib.rs:104-130): returns the step record, the new
`previous_output`, and the warning appended on failure (if any). -/
def runStep (agents : AgentBehavior) (request : AgentOrchestrationRequest)
    (previous_output : Option Json) (agent_type : AgentType) :
    AgentExecution × Option Json × Option String :=
  match execute_agent agents agent_type request previous_output with
  | .ok (input, output) =>
    ({ agent_type := agent_type, input := input, output := output,
       success := true, error_message := none },
     some output, none)
  | .error e =>
    ({ agent_type := agent_type, input := Json.null,
       output := Json.obj [("error", Json.str e), ("agent", Json.str agent_type.debugStr)],
       success := false, error_message := some e },
     previous_output,
     some ("Agent " ++ agent_type.debugStr ++ " failed: " ++ e))

/-- The `for agent_type in agent_sequence` loop of `AgentSuite::orchestrate`,
threading `previous_output` and accumulating records and warnings in order.
Returns `(executions, warnings, previous_output)`. -/
def orchestrateLoop (agents : AgentBehavior) (request : AgentOrchestrationRequest) :
    List AgentType → Option Json → List AgentExecution × List String × Option Json
  | [], previous_output => ([], [], previous_output)
  | t :: rest, previous_output =>
    let step := runStep agents request previous_output t
    let tail := orchestrateLoop agents request rest step.2.1
    (step.1 :: tail.1, step.2.2.toList ++ tail.2.1, tail.2.2)

/-- The default execution order substituted by `unwrap_or_else` in
`AgentSuite::orchestrate` (src/codex/agents/src/lib.rs:93-100). -/
def defaultAgentSequence : List AgentType :=
  [.Spec, .Code, .Reviewer, .TestGenerator]

/-- `request.agent_sequence.unwrap_or_else(|| vec![Spec, Code, Reviewer,
TestGenerator])`. -/
def resolvedSequence (request : AgentOrchestrationRequest) : List AgentType :=
  request.agent_sequence.getD defaultAgentSequence

/-- `AgentSuite::orchestrate` (src/codex/agents/src/lib.rs:87-150).  The Rust
function always returns `Ok`, so the model returns the response directly. -/
def orchestrate (agents : AgentBehavior) (request : AgentOrchestrationRequest) :
    AgentOrchestrationResponse :=
  let agent_sequence := resolvedSequence request
  let r := orchestrateLoop agents request agent_sequence none
  let executions := r.1
  let success_count := (executions.filter (fun e => e.success)).length
  let success_rate : ℚ :=
    if executions.isEmpty then 0
    else ((success_count : ℚ) / (executions.length : ℚ)) * 100
  { execution_order := executions
    final_result := r.2.2
    metadata :=
      { agents_executed := agent_sequence.length
        success_rate := success_rate
        warnings := r.2.1 } }

/-- One escaped character of serde_json's string serialization: quote,
backslash and the named control characters get two-character escapes, the
remaining control characters a lowercase `\u00XX` escape. -/
def escapeJsonChar (c : Char) : String :=
  if c = '"' then "\\\""
  else if c = '\\' then "\\\\"
  else if c = '\x08' then "\\b"
  else if c = '\x09' then "\\t"
  else if c = '\x0a' then "\\n"
  else if c = '\x0c' then "\\f"
  else if c = '\x0d' then "\\r"
  else if c.toNat < 32 then
    let lo := c.toNat % 16
    let hi := c.toNat / 16
    let hexDigit := fun n => Char.ofNat (if n < 10 then 48 + n else 87 + n)
    "\\u00" ++ String.singleton (hexDigit hi) ++ String.singleton (hexDigit lo)
  else String.singleton c

/-- serde_json's escaping of a string body. -/
def escapeJsonString (s : String) : String :=
  String.join (s.data.map escapeJsonChar)

mutual

/-- `serde_json::Value`'s `Display`/`to_string()`: the compact JSON
serialization of a value. -/
def jsonToString : Json → String
  | .null => "null"
  | .bool b => if b then "true" else "false"
  | .num n => toString n
  | .str s => "\"" ++ escapeJsonString s ++ "\""
  | .arr xs => "[" ++ jsonListToString xs ++ "]"
  | .obj fs => "\x7b" ++ jsonFieldsToString fs ++ "\x7d"

/-- Comma-separated serialization of array elements. -/
def jsonListToString : List Json → String
  | [] => ""
  | [x] => jsonToString x
  | x :: y :: rest => jsonToString x ++ "," ++ jsonListToString (y :: rest)

/-- Comma-separated serialization of object fields. -/
def jsonFieldsToString : List (String × Json) → String
  | [] => ""
  | [(k, v)] => "\"" ++ escapeJsonString k ++ "\":" ++ jsonToString v
  | (k, v) :: p :: rest =>
    "\"" ++ escapeJsonString k ++ "\":" ++ jsonToString v ++ "," ++ jsonFieldsToString (p :: rest)

end

namespace Orchestrator

/-- `struct OrchestrationRequest` of the orchestrator service
(src/codex/backend/orchestrator/src/lib.rs:29-35): `context` and `options`
arrive as raw JSON values. -/
structure OrchestrationRequest where
  prompt : String
  context : Option Json
  agent_sequence : Option (List String)
  options : Option Json

/-- `enum OrchestrationStatus`. -/
inductive OrchestrationStatus where
  | Pending : OrchestrationStatus
  | InProgress : OrchestrationStatus
  | Completed : OrchestrationStatus
  | Failed : String → OrchestrationStatus
  deriving DecidableEq, Repr

/-- `struct OrchestrationMetadata` of the orchestrator service.  The
timestamp and duration fields are not modelled. -/
structure OrchestrationMetadata where
  agent_sequence : List String
  success : Bool
  error : Option String

/-- `struct OrchestrationResponse`.  `request_id` (a random UUID) is not
modelled. -/
structure OrchestrationResponse where
  status : OrchestrationStatus
  result : Option Json
  metadata : OrchestrationMetadata

end Orchestrator

/-- Model of Rust's `str::to_lowercase` as used on candidate agent names
(ASCII case mapping; the only non-ASCII character whose Unicode lowercase
is ASCII is the Kelvin sign, which cannot make any of the matched names). -/
def rustToLowercase (s : String) : String :=
  String.mk (s.data.map Char.toLower)

/-- The `filter_map` closure of `AgentOrchestrator::process_request`
(src/codex/backend/orchestrator/src/lib.rs:105-112): lowercase the name and
map the recognized spellings, dropping everything else. -/
def parseAgentName (agent : String) : Option AgentType :=
  match rustToLowercase agent with
  | "spec" => some .Spec
  | "code" => some .Code
  | "test" => some .TestGenerator
  | "test_generator" => some .TestGenerator
  | "review" => some .Reviewer
  | "reviewer" => some .Reviewer
  | "debug" => some .Debug
  | _ => none

/-- The service-layer default substituted by `unwrap_or_else` in
`process_request` (src/codex/backend/orchestrator/src/lib.rs:103):
`vec!["spec", "code", "reviewer"]`. -/
def defaultServiceSequence : List String :=
  ["spec", "code", "reviewer"]

/-- Resolution of the caller-supplied name strings into agent types
(src/codex/backend/orchestrator/src/lib.rs:102-113). -/
def resolveServiceSequence (agent_sequence : Option (List String)) : List AgentType :=
  (agent_sequence.getD defaultServiceSequence).filterMap parseAgentName

/-- `ctx.as_object().map(|map| map.iter().map(|(k, v)| (k.clone(),
v.to_string())).collect()).unwrap_or_default()`
(src/codex/backend/orchestrator/src/lib.rs:117-127): a non-object JSON value
becomes the empty map, an object keeps its keys and serializes each value
with `Value::to_string()`. -/
def mapJsonToStringMap (v : Json) : List (String × String) :=
  match v with
  | .obj fields => fields.map (fun p => (p.1, jsonToString p.2))
  | _ => []

/-- Construction of the agents-layer request inside `process_request`
(src/codex/backend/orchestrator/src/lib.rs:115-128). -/
def buildAgentRequest (request : Orchestrator.OrchestrationRequest)
    (agent_sequence : List AgentType) : AgentOrchestrationRequest :=
  { prompt := request.prompt
    context := request.context.map mapJsonToStringMap
    agent_sequence := some agent_sequence
    options := request.options.map mapJsonToStringMap }

/-- `AgentOrchestrator::process_request`
(src/codex/backend/orchestrator/src/lib.rs:87-174).  `orchestrate` always
returns `Ok`, so only the `Ok` match arm (status `Completed`) is reachable;
the mutex-guarded session counters are not modelled. -/
def process_request (agents : AgentBehavior)
    (request : Orchestrator.OrchestrationRequest) : Orchestrator.OrchestrationResponse :=
  let agent_sequence := resolveServiceSequence request.agent_sequence
  let agent_request := buildAgentRequest request agent_sequence
  let response := orchestrate agents agent_request
  { status := .Completed
    result := some (jsonOfOptVal response.final_result)
    metadata :=
      { agent_sequence := agent_sequence.map AgentType.debugStr
        success := true
        error := none } }

/-- First-`some` choice, mirroring how a later successful output supersedes
an earlier one when scanning records from the right. -/
def orDefault (a b : Option Json) : Option Json :=
  match a with
  | some o => some o
  | none => b

/-- Output of the last record with `success = true` in a record list,
`none` when there is no such record. -/
def lastSuccessOutput : List AgentExecution → Option Json
  | [] => none
  | r :: rest =>
    orDefault (lastSuccessOutput rest) (if r.success then some r.output else none)

/-- The value of the loop variable `previous_output` just before step `i`
of the run: the state after executing the first `i` resolved steps. -/
def priorStateAt (agents : AgentBehavior) (request : AgentOrchestrationRequest)
    (i : Nat) : Option Json :=
  (orchestrateLoop agents request ((resolvedSequence request).take i) none).2.2

theorem orDefault_none_right (a : Option Json) : orDefault a none = a := by
  cases a <;> rfl

section LoopLemmas

variable (agents : AgentBehavior) (request : AgentOrchestrationRequest)

theorem runStep_agentType (prev : Option Json) (t : AgentType) :
    (runStep agents request prev t).1.agent_type = t := by
  cases h : execute_agent agents t request prev <;> simp [runStep, h]

theorem runStep_prev_char (prev : Option Json) (t : AgentType) :
    (runStep agents request prev t).2.1 =
      if (runStep agents request prev t).1.success
      then some (runStep agents request prev t).1.output else prev := by
  cases h : execute_agent agents t request prev <;> simp [runStep, h]

theorem orchestrateLoop_length (seq : List AgentType) (prev : Option Json) :
    ((orchestrateLoop agents request seq prev).1).length = seq.length := by
  induction seq generalizing prev with
  | nil => rfl
  | cons t rest ih => simp [orchestrateLoop, ih]

theorem orchestrateLoop_map_agentType (seq : List AgentType) (prev : Option Json) :
    ((orchestrateLoop agents request seq prev).1).map (fun e => e.agent_type) = seq := by
  induction seq generalizing prev with
  | nil => rfl
  | cons t rest ih =>
    simp [orchestrateLoop, ih, runStep_agentType]

theorem orchestrateLoop_append (s1 s2 : List AgentType) (prev : Option Json) :
    orchestrateLoop agents request (s1 ++ s2) prev =
      ((orchestrateLoop agents request s1 prev).1 ++
         (orchestrateLoop agents request s2 (orchestrateLoop agents request s1 prev).2.2).1,
       (orchestrateLoop agents request s1 prev).2.1 ++
         (orchestrateLoop agents request s2 (orchestrateLoop agents request s1 prev).2.2).2.1,
       (orchestrateLoop agents request s2 (orchestrateLoop agents request s1 prev).2.2).2.2) := by
  induction s1 generalizing prev with
  | nil => simp [orchestrateLoop]
  | cons t rest ih => simp [orchestrateLoop, ih]

theorem orchestrateLoop_take (seq : List AgentType) (prev : Option Json)
    (i : Nat) (h : i ≤ seq.length) :
    (orchestrateLoop agents request (seq.take i) prev).1 =
      ((orchestrateLoop agents request seq prev).1).take i := by
  have hsplit : seq = seq.take i ++ seq.drop i := (List.take_append_drop i seq).symm
  have hlen : ((orchestrateLoop agents request (seq.take i) prev).1).length = i := by
    rw [orchestrateLoop_length]
    simpa using h
  calc (orchestrateLoop agents request (seq.take i) prev).1
      = (((orchestrateLoop agents request (seq.take i) prev).1) ++
          (orchestrateLoop agents request (seq.drop i)
            (orchestrateLoop agents request (seq.take i) prev).2.2).1).take i := by
        rw [List.take_append_of_le_length (by omega)]
        simp [hlen]
    _ = ((orchestrateLoop agents request seq prev).1).take i := by
        conv_rhs => rw [hsplit]
        rw [orchestrateLoop_append]

theorem orchestrateLoop_prev_eq (seq : List AgentType) (prev : Option Json) :
    (orchestrateLoop agents request seq prev).2.2 =
      orDefault (lastSuccessOutput ((orchestrateLoop agents request seq prev).1)) prev := by
  induction seq generalizing prev with
  | nil => rfl
  | cons t rest ih =>
    cases h : execute_agent agents t request prev with
    | ok p =>
      simp only [orchestrateLoop, runStep, h, lastSuccessOutput, ih]
      cases lastSuccessOutput (orchestrateLoop agents request rest (some p.2)).1 <;>
        simp [orDefault]
    | error e =>
      simp only [orchestrateLoop, runStep, h, lastSuccessOutput, ih]
      cases lastSuccessOutput (orchestrateLoop agents request rest prev).1 <;>
        simp [orDefault]

theorem orchestrateLoop_index_char (seq : List AgentType) (prev : Option Json)
    (i : Nat) (rec : AgentExecution)
    (h : ((orchestrateLoop agents request seq prev).1)[i]? = some rec) :
    rec = (runStep agents request
        ((orchestrateLoop agents request (seq.take i) prev).2.2) rec.agent_type).1 ∧
    (orchestrateLoop agents request (seq.take (i + 1)) prev).2.2 =
      (runStep agents request
        ((orchestrateLoop agents request (seq.take i) prev).2.2) rec.agent_type).2.1 := by
  induction seq generalizing prev i with
  | nil => simp [orchestrateLoop] at h
  | cons t rest ih =>
    cases i with
    | zero =>
      simp only [orchestrateLoop, List.getElem?_cons_zero, Option.some_inj] at h
      subst h
      refine ⟨?_, ?_⟩
      · rw [runStep_agentType]
        simp [orchestrateLoop]
      · rw [runStep_agentType]
        simp [orchestrateLoop]
    | succ i =>
      simp only [orchestrateLoop, List.getElem?_cons_succ] at h
      have := ih (runStep agents request prev t).2.1 i h
      simpa [orchestrateLoop] using this

theorem orchestrateLoop_failed_mem (seq : List AgentType) (prev : Option Json)
    (rec : AgentExecution)
    (hmem : rec ∈ (orchestrateLoop agents request seq prev).1)
    (hfail : rec.success = false) :
    ∃ e, rec.error_message = some e ∧ rec.input = Json.null ∧
      rec.output = Json.obj [("error", Json.str e),
        ("agent", Json.str rec.agent_type.debugStr)] ∧
      ("Agent " ++ rec.agent_type.debugStr ++ " failed: " ++ e) ∈
        (orchestrateLoop agents request seq prev).2.1 := by
  induction seq generalizing prev with
  | nil => simp [orchestrateLoop] at hmem
  | cons t rest ih =>
    simp only [orchestrateLoop, List.mem_cons] at hmem
    cases hmem with
    | inl hhead =>
      cases h : execute_agent agents t request prev with
      | ok p =>
        simp only [runStep, h] at hhead
        subst hhead
        simp at hfail
      | error e =>
        simp only [runStep, h] at hhead
        subst hhead
        refine ⟨e, ?_, ?_, ?_, ?_⟩ <;> simp [runStep, h, orchestrateLoop]
    | inr htail =>
      obtain ⟨e, h1, h2, h3, h4⟩ := ih (runStep agents request prev t).2.1 htail
      exact ⟨e, h1, h2, h3, by simp [orchestrateLoop, h4]⟩

end LoopLemmas

theorem lastSuccessOutput_eq_filter_getLast (recs : List AgentExecution) :
    lastSuccessOutput recs =
      ((recs.filter (fun e => e.success)).getLast?).map (fun e => e.output) := by
  induction recs with
  | nil => rfl
  | cons r rest ih =>
    by_cases hs : r.success
    · simp only [lastSuccessOutput, ih, hs, if_true, List.filter_cons_of_pos hs]
      cases hfr : rest.filter (fun e => e.success) with
      | nil => simp [orDefault]
      | cons x xs =>
        rw [List.getLast?_cons_cons]
        cases h2 : (x :: xs).getLast? with
        | none => simp [List.getLast?_eq_none_iff] at h2
        | some y => simp [orDefault, h2]
    · simp only [lastSuccessOutput, ih, List.filter_cons_of_neg (by simpa using hs)]
      simp [hs, orDefault_none_right]

theorem lastSuccessOutput_eq_none (recs : List AgentExecution)
    (h : ∀ r ∈ recs, r.success = false) : lastSuccessOutput recs = none := by
  induction recs with
  | nil => rfl
  | cons r rest ih =>
    simp [lastSuccessOutput, ih (fun x hx => h x (List.mem_cons_of_mem r hx)),
      h r (List.mem_cons_self r rest), orDefault]

/-- Sample behaviour in which every agent succeeds, echoing its input. -/
def okAgents : AgentBehavior := fun _ input => .ok (Json.obj [("echo", input)])

/-- Sample behaviour in which every agent fails with message `"boom"`. -/
def failingAgents : AgentBehavior := fun _ _ => .error "boom"

/-- Sample behaviour in which the Spec agent succeeds and every other agent
fails with message `"boom"`. -/
def mixedAgents : AgentBehavior := fun t _ =>
  match t with
  | .Spec => .ok (Json.str "specout")
  | _ => .error "boom"

/-- Sample agents-layer request with no explicit sequence. -/
def reqDefault : AgentOrchestrationRequest :=
  { prompt := "p", context := none, agent_sequence := none, options := none }

/-- Sample agents-layer request running `[Spec, Code]`. -/
def reqSpecCode : AgentOrchestrationRequest :=
  { prompt := "p", context := none,
    agent_sequence := some [.Spec, .Code], options := none }

/-- Sample agents-layer request running only `[Spec]`. -/
def reqSpecOnly : AgentOrchestrationRequest :=
  { prompt := "p", context := none, agent_sequence := some [.Spec], options := none }

/-- Sample agents-layer request with a caller-supplied empty sequence. -/
def reqEmptySeq : AgentOrchestrationRequest :=
  { prompt := "p", context := none, agent_sequence := some [], options := none }

/-- Sample service-layer request with an absent `agent_sequence`. -/
def sreqNone : Orchestrator.OrchestrationRequest :=
  { prompt := "p", context := none, agent_sequence := none, options := none }

/-- The step record produced when the Spec agent fails with `"boom"`. -/
def failRecSpec : AgentExecution :=
  { agent_type := .Spec, input := Json.null,
    output := Json.obj [("error", Json.str "boom"), ("agent", Json.str "Spec")],
    success := false, error_message := some "boom" }

/-- The step record produced when the Code agent fails with `"boom"`. -/
def failRec1 : AgentExecution :=
  { agent_type := .Code, input := Json.null,
    output := Json.obj [("error", Json.str "boom"), ("agent", Json.str "Code")],
    success := false, error_message := some "boom" }

/-- C3: for every pipeline run, the final result field of the response equals
the output of the last step whose invocation succeeded (the last record with
`success = true`, which need not be the last step in the sequence), and is
`none` when zero steps succeeded (the second conjunct identifies
`lastSuccessOutput` with the last element of the success-filtered records,
so an empty filter yields `none`). -/
theorem final_result_last_success (agents : AgentBehavior)
    (request : AgentOrchestrationRequest) :
    (orchestrate agents request).final_result =
      lastSuccessOutput ((orchestrate agents request).execution_order) ∧
    ∀ recs : List AgentExecution,
      lastSuccessOutput recs =
        ((recs.filter (fun e => e.success)).getLast?).map (fun e => e.output) := by
  constructor
  · show (orchestrateLoop agents request (resolvedSequence request) none).2.2 =
      lastSuccessOutput (orchestrateLoop agents request (resolvedSequence request) none).1
    rw [orchestrateLoop_prev_eq, orDefault_none_right]
  · exact lastSuccessOutput_eq_filter_getLast

/-- C4: for every resolved agent sequence of length N, the returned
step-record list has exactly N entries, one per resolved agent type in
exactly the resolved sequence order (even for failing steps), and the
metadata's `agents_executed` equals N. -/
theorem one_record_per_resolved_agent (agents : AgentBehavior)
    (request : AgentOrchestrationRequest) :
    ((orchestrate agents request).execution_order).map (fun e => e.agent_type) =
      resolvedSequence request ∧
    ((orchestrate agents request).execution_order).length =
      (resolvedSequence request).length ∧
    (orchestrate agents request).metadata.agents_executed =
      (resolvedSequence request).length := by
  refine ⟨?_, ?_, rfl⟩
  · exact orchestrateLoop_map_agentType agents request (resolvedSequence request) none
  · exact orchestrateLoop_length agents request (resolvedSequence request) none

/-- C5: for every run with N executed steps of which S succeeded, the
metadata's `success_rate` equals `100 * S / N` when `N > 0` and `0` when
`N = 0` (the source's `f32` arithmetic is modelled as exact rationals). -/
theorem success_rate_formula (agents : AgentBehavior)
    (request : AgentOrchestrationRequest) :
    (((orchestrate agents request).execution_order).length = 0 →
      (orchestrate agents request).metadata.success_rate = 0) ∧
    (((orchestrate agents request).execution_order).length ≠ 0 →
      (orchestrate agents request).metadata.success_rate =
        100 * ((((orchestrate agents request).execution_order).filter
            (fun e => e.success)).length : ℚ) /
          (((orchestrate agents request).execution_order).length : ℚ)) := by
  have hrate : (orchestrate agents request).metadata.success_rate =
      if ((orchestrate agents request).execution_order).isEmpty then (0 : ℚ)
      else ((((orchestrate agents request).execution_order).filter
          (fun e => e.success)).length : ℚ) /
        (((orchestrate agents request).execution_order).length : ℚ) * 100 := rfl
  constructor
  · intro h
    rw [hrate, if_pos]
    rw [List.isEmpty_iff, ← List.length_eq_zero]
    exact h
  · intro h
    rw [hrate, if_neg]
    · ring
    · rw [List.isEmpty_iff, ← List.length_eq_zero]
      exact h

/-- C5 witness: a zero-step run has rate 0, and the four-step default run
with one success satisfies the `100 * S / N` formula. -/
theorem success_rate_formula_witness :
    (orchestrate okAgents reqEmptySeq).metadata.success_rate = 0 ∧
    (orchestrate mixedAgents reqDefault).metadata.success_rate =
      100 * ((((orchestrate mixedAgents reqDefault).execution_order).filter
          (fun e => e.success)).length : ℚ) /
        (((orchestrate mixedAgents reqDefault).execution_order).length : ℚ) :=
  ⟨(success_rate_formula okAgents reqEmptySeq).1 rfl,
   (success_rate_formula mixedAgents reqDefault).2 (by decide)⟩

/-- C8: the input mapper `prepare_agent_input` is pure and total — for every
agent type, request and optional prior output it returns `Ok` with a payload;
the Debug agent's input never depends on the prior output; and Code,
TestGenerator and Reviewer fall back to a reduced payload when no prior
output exists. -/
theorem input_mapper_total (request : AgentOrchestrationRequest)
    (previous_output : Option Json) (t : AgentType) :
    (∃ j, prepare_agent_input t request previous_output = .ok j) ∧
    prepare_agent_input .Debug request previous_output =
      prepare_agent_input .Debug request none ∧
    prepare_agent_input .Code request none =
      .ok (Json.obj [("prompt", Json.str request.prompt),
        ("context", jsonOfCtx request.context)]) ∧
    prepare_agent_input .TestGenerator request none =
      .ok (Json.obj [("prompt", Json.str request.prompt)]) ∧
    prepare_agent_input .Reviewer request none =
      .ok (Json.obj [("prompt", Json.str request.prompt)]) := by
  refine ⟨?_, rfl, rfl, rfl, rfl⟩
  cases t <;> cases previous_output <;> exact ⟨_, rfl⟩

/-- C9: for every step whose execution fails, the recorded `AgentExecution`'s
`input` field is JSON `null` rather than the mapped input payload. -/
theorem failed_step_input_null (agents : AgentBehavior)
    (request : AgentOrchestrationRequest) (rec : AgentExecution)
    (hmem : rec ∈ (orchestrate agents request).execution_order)
    (hfail : rec.success = false) :
    rec.input = Json.null := by
  have hmem' : rec ∈ (orchestrateLoop agents request (resolvedSequence request) none).1 :=
    hmem
  obtain ⟨e, _, h2, _, _⟩ :=
    orchestrateLoop_failed_mem agents request (resolvedSequence request) none rec hmem' hfail
  exact h2

/-- C9 witness: the single failing Spec step of a concrete run records
`input = null`. -/
theorem failed_step_input_null_witness :
    failRecSpec ∈ (orchestrate failingAgents reqSpecOnly).execution_order ∧
    failRecSpec.success = false ∧ failRecSpec.input = Json.null :=
  have hmem : failRecSpec ∈ (orchestrate failingAgents reqSpecOnly).execution_order := by
    show failRecSpec ∈ [failRecSpec]
    exact List.mem_singleton_self _
  ⟨hmem, rfl, failed_step_input_null failingAgents reqSpecOnly failRecSpec hmem rfl⟩

/-- C10: at the service boundary a `context` or `options` value that is valid
JSON but not an object is silently replaced by the empty map; an object keeps
its keys and converts each value to its JSON-serialized string form (a string
value acquires surrounding quote characters); and the converted maps are what
`buildAgentRequest` passes to the pipeline. -/
theorem service_context_conversion (v : Json) (fields : List (String × Json))
    (s : String) (sreq : Orchestrator.OrchestrationRequest) (seq : List AgentType)
    (h : v.isObj = false) :
    mapJsonToStringMap v = [] ∧
    mapJsonToStringMap (Json.obj fields) =
      fields.map (fun p => (p.1, jsonToString p.2)) ∧
    jsonToString (Json.str s) = "\"" ++ escapeJsonString s ++ "\"" ∧
    (buildAgentRequest sreq seq).context = sreq.context.map mapJsonToStringMap ∧
    (buildAgentRequest sreq seq).options = sreq.options.map mapJsonToStringMap := by
  refine ⟨?_, rfl, rfl, rfl, rfl⟩
  cases v <;> try rfl
  simp [Json.isObj] at h

/-- C10 witness: a JSON number context becomes the empty map, and a string
field value is serialized with surrounding quotes. -/
theorem service_context_conversion_witness :
    mapJsonToStringMap (Json.num 7) = [] ∧
    mapJsonToStringMap (Json.obj [("k", Json.str "x")]) =
      [("k", Json.str "x")].map (fun p => (p.1, jsonToString p.2)) ∧
    jsonToString (Json.str "x") = "\"" ++ escapeJsonString "x" ++ "\"" ∧
    (buildAgentRequest sreqNone []).context = sreqNone.context.map mapJsonToStringMap ∧
    (buildAgentRequest sreqNone []).options = sreqNone.options.map mapJsonToStringMap :=
  service_context_conversion (Json.num 7) [("k", Json.str "x")] "x" sreqNone [] rfl

/-- C7: every caller-supplied agent-name string is mapped case-insensitively
(two names with the same lowercasing resolve identically), the five
recognized spellings map to their agent types, unrecognized names are
silently dropped, and the resolved sequence is exactly the recognized types
in their original relative order (`List.filterMap`). -/
theorem agent_name_resolution (names : List String) (s t : String)
    (h : rustToLowercase s = rustToLowercase t) :
    parseAgentName s = parseAgentName t ∧
    resolveServiceSequence (some names) = names.filterMap parseAgentName ∧
    parseAgentName "spec" = some AgentType.Spec ∧
    parseAgentName "code" = some AgentType.Code ∧
    parseAgentName "test" = some AgentType.TestGenerator ∧
    parseAgentName "test_generator" = some AgentType.TestGenerator ∧
    parseAgentName "review" = some AgentType.Reviewer ∧
    parseAgentName "reviewer" = some AgentType.Reviewer ∧
    parseAgentName "debug" = some AgentType.Debug ∧
    parseAgentName "unknown" = none := by
  refine ⟨?_, rfl, by decide, by decide, by decide, by decide, by decide,
    by decide, by decide, by decide⟩
  simp only [parseAgentName, h]

/-- C7 witness: an uppercase spelling resolves exactly as its lowercase
form, and the recognized/unrecognized mappings hold on concrete names. -/
theorem agent_name_resolution_witness :
    rustToLowercase "SPEC" = rustToLowercase "spec" ∧
    parseAgentName "SPEC" = parseAgentName "spec" ∧
    resolveServiceSequence (some ["SPEC", "bogus"]) =
      ["SPEC", "bogus"].filterMap parseAgentName :=
  have h : rustToLowercase "SPEC" = rustToLowercase "spec" := by decide
  ⟨h, (agent_name_resolution ["SPEC", "bogus"] "SPEC" "spec" h).1,
   (agent_name_resolution ["SPEC", "bogus"] "SPEC" "spec" h).2.1⟩

/-- C1: for every run and every step `i`, the record at `i` is produced from
the prior-output state before step `i` (so step `i + 1`'s input is computed
from it); on success the prior output becomes that step's output, on failure
it is left unchanged; and the prior state before step `i` is the output of
the last successful step among the first `i` records (or `none`). -/
theorem prior_output_threading (agents : AgentBehavior)
    (request : AgentOrchestrationRequest) (i : Nat) (rec : AgentExecution)
    (h : ((orchestrate agents request).execution_order)[i]? = some rec) :
    (priorStateAt agents request (i + 1) =
      if rec.success then some rec.output else priorStateAt agents request i) ∧
    priorStateAt agents request i =
      lastSuccessOutput (((orchestrate agents request).execution_order).take i) ∧
    rec = (runStep agents request (priorStateAt agents request i) rec.agent_type).1 := by
  have h' : ((orchestrateLoop agents request (resolvedSequence request) none).1)[i]? =
      some rec := h
  have hi : i < (resolvedSequence request).length := by
    by_contra hc
    rw [List.getElem?_eq_none
      (by rw [orchestrateLoop_length]; omega)] at h'
    exact Option.noConfusion h'
  obtain ⟨hchar, hnext⟩ :=
    orchestrateLoop_index_char agents request (resolvedSequence request) none i rec h'
  refine ⟨?_, ?_, hchar⟩
  · show (orchestrateLoop agents request
        ((resolvedSequence request).take (i + 1)) none).2.2 = _
    rw [hnext, runStep_prev_char, ← hchar]
    rfl
  · show (orchestrateLoop agents request
        ((resolvedSequence request).take i) none).2.2 = _
    rw [orchestrateLoop_prev_eq, orDefault_none_right,
      orchestrateLoop_take agents request _ none i (le_of_lt hi)]
    rfl

/-- C1 witness: in the two-step run `[Spec, Code]` where Spec succeeds and
Code fails, the prior output before step 2 equals the prior output before
the failing step 1, which is Spec's output. -/
theorem prior_output_threading_witness :
    ((orchestrate mixedAgents reqSpecCode).execution_order)[1]? = some failRec1 ∧
    ((priorStateAt mixedAgents reqSpecCode 2 =
        if failRec1.success then some failRec1.output
        else priorStateAt mixedAgents reqSpecCode 1) ∧
      priorStateAt mixedAgents reqSpecCode 1 =
        lastSuccessOutput (((orchestrate mixedAgents reqSpecCode).execution_order).take 1) ∧
      failRec1 = (runStep mixedAgents reqSpecCode
        (priorStateAt mixedAgents reqSpecCode 1) failRec1.agent_type).1) :=
  ⟨rfl, prior_output_threading mixedAgents reqSpecCode 1 failRec1 rfl⟩

/-- C2: an individual step failure never aborts the run — the record list
still covers the whole resolved sequence; every failing record carries
`success = false`, the sentinel output `\x7berror, agent\x7d`, the error
message, and a corresponding warning string; and the service response's
status is `Completed` (with `success = true`) for every request, even when
all steps fail. -/
theorem step_failures_never_abort (agents : AgentBehavior)
    (sreq : Orchestrator.OrchestrationRequest)
    (request : AgentOrchestrationRequest) (rec : AgentExecution)
    (hmem : rec ∈ (orchestrate agents request).execution_order)
    (hfail : rec.success = false) :
    (process_request agents sreq).status = Orchestrator.OrchestrationStatus.Completed ∧
    (process_request agents sreq).metadata.success = true ∧
    ((orchestrate agents request).execution_order).length =
      (resolvedSequence request).length ∧
    ∃ e, rec.error_message = some e ∧
      rec.output = Json.obj [("error", Json.str e),
        ("agent", Json.str rec.agent_type.debugStr)] ∧
      ("Agent " ++ rec.agent_type.debugStr ++ " failed: " ++ e) ∈
        (orchestrate agents request).metadata.warnings := by
  refine ⟨rfl, rfl, orchestrateLoop_length agents request (resolvedSequence request) none, ?_⟩
  have hmem' : rec ∈ (orchestrateLoop agents request (resolvedSequence request) none).1 :=
    hmem
  obtain ⟨e, h1, _, h3, h4⟩ :=
    orchestrateLoop_failed_mem agents request (resolvedSequence request) none rec hmem' hfail
  exact ⟨e, h1, h3, h4⟩

/-- C2 witness: with every agent failing, the service response is still
`Completed` and the failing Spec step's warning is recorded. -/
theorem step_failures_never_abort_witness :
    (process_request failingAgents sreqNone).status =
      Orchestrator.OrchestrationStatus.Completed ∧
    "Agent Spec failed: boom" ∈ (orchestrate failingAgents reqSpecOnly).metadata.warnings := by
  have hmem : failRecSpec ∈ (orchestrate failingAgents reqSpecOnly).execution_order := by
    show failRecSpec ∈ [failRecSpec]
    exact List.mem_singleton_self _
  obtain ⟨hs, -, -, e, h1, -, h3⟩ :=
    step_failures_never_abort failingAgents sreqNone reqSpecOnly failRecSpec hmem rfl
  have he : "boom" = e := Option.some.inj h1
  subst he
  exact ⟨hs, h3⟩

/-- C6 counterexample: the claim that an absent or empty `agent_sequence`
runs the 4-stage default is false at the service boundary — an absent
sequence resolves to the 3-stage `[Spec, Code, Reviewer]`, and a
caller-supplied empty sequence executes zero steps. -/
theorem default_sequence_claim_counterexample :
    (process_request okAgents sreqNone).metadata.agent_sequence =
      ["Spec", "Code", "Reviewer"] ∧
    (process_request okAgents sreqNone).metadata.agent_sequence ≠
      defaultAgentSequence.map AgentType.debugStr ∧
    (orchestrate okAgents reqEmptySeq).execution_order = [] ∧
    (orchestrate okAgents reqEmptySeq).metadata.agents_executed = 0 := by
  refine ⟨rfl, by decide, rfl, rfl⟩

/-- C6 (amended): at the agents layer a `None` sequence is replaced by the
4-stage default `[Spec, Code, Reviewer, TestGenerator]`; the service layer
replaces an absent `agent_sequence` by the 3-stage default
`["spec", "code", "reviewer"]` (resolving to `[Spec, Code, Reviewer]`) and
always passes an explicit sequence on, so a caller-supplied empty sequence
executes zero steps. -/
theorem default_sequence_resolution (agents : AgentBehavior)
    (request request2 : AgentOrchestrationRequest)
    (h : request.agent_sequence = none)
    (h2 : request2.agent_sequence = some []) :
    resolvedSequence request =
      [AgentType.Spec, AgentType.Code, AgentType.Reviewer, AgentType.TestGenerator] ∧
    resolveServiceSequence none =
      [AgentType.Spec, AgentType.Code, AgentType.Reviewer] ∧
    (orchestrate agents request2).execution_order = [] ∧
    (orchestrate agents request2).metadata.agents_executed = 0 := by
  refine ⟨?_, by decide, ?_, ?_⟩
  · simp [resolvedSequence, h, defaultAgentSequence]
  · show (orchestrateLoop agents request2 (resolvedSequence request2) none).1 = []
    simp [resolvedSequence, h2, orchestrateLoop]
  · show (resolvedSequence request2).length = 0
    simp [resolvedSequence, h2]

/-- C6 witness: the amended statement instantiated at concrete requests with
a `None` and an empty sequence. -/
theorem default_sequence_resolution_witness :
    resolvedSequence reqDefault =
      [AgentType.Spec, AgentType.Code, AgentType.Reviewer, AgentType.TestGenerator] ∧
    resolveServiceSequence none =
      [AgentType.Spec, AgentType.Code, AgentType.Reviewer] ∧
    (orchestrate okAgents reqEmptySeq).execution_order = [] ∧
    (orchestrate okAgents reqEmptySeq).metadata.agents_executed = 0 :=
  default_sequence_resolution okAgents reqDefault reqEmptySeq rfl rfl

end Adex
